import Mathlib

/-!
Verification of the play-description feature-extraction and derived-context
engine of the NFL data-ingestion repository (`src/database/db_utils.py`).

The Python functions are shallowly embedded as executable Lean definitions:
strings are `String` / `List Char`, Python `None` is `Option.none`, Python
floats are modelled exactly as rationals `ℚ`, and each `re.search` call is
realised by a dedicated left-to-right scanner that implements exactly the
regular expression used at that call site (all of those patterns are
deterministic: greedy repetition never needs backtracking except in the
`[A-Z]{2,3}` team-code case, which is treated explicitly).
-/

set_option autoImplicit false
set_option maxRecDepth 4000

namespace NflDb

/-- Character-list view of a string literal (used for substring patterns). -/
def pat (s : String) : List Char := s.toList

/-- Lower-cased character list of a string: Python `s.lower()` for the
ASCII texts handled by the parser. -/
def lowerStr (s : String) : List Char := s.toList.map Char.toLower

/-- `isPrefixCL p l` : the character list `p` is a prefix of `l`. -/
def isPrefixCL : List Char → List Char → Bool
  | [], _ => true
  | _ :: _, [] => false
  | a :: as, b :: bs => a == b && isPrefixCL as bs

/-- `containsCL p l` : Python `p in l` substring containment. -/
def containsCL (p : List Char) : List Char → Bool
  | [] => isPrefixCL p []
  | c :: rest => isPrefixCL p (c :: rest) || containsCL p rest

/-- Python regex `\s` (ASCII whitespace as used by `re`). -/
def isPySpace (c : Char) : Bool :=
  c == ' ' || c == '\t' || c == '\n' || c == '\r' || c == '\x0b' || c == '\x0c'

/-- Numeric value of a digit run. -/
def digitsVal (ds : List Char) : Nat :=
  ds.foldl (fun a c => a * 10 + (c.toNat - 48)) 0

/-- Consume a literal string, case-sensitively. -/
def dropLit (lit : String) (l : List Char) : Option (List Char) :=
  if isPrefixCL lit.toList l then some (l.drop lit.toList.length) else none

/-- Consume a literal string, case-insensitively (for `re.IGNORECASE`). -/
def dropLitCI (lit : String) (l : List Char) : Option (List Char) :=
  if isPrefixCL (lowerStr lit) (l.map Char.toLower) then
    some (l.drop lit.toList.length)
  else none

/-- Consume `\s+` (one or more whitespace characters, greedily). -/
def spaces1 (l : List Char) : Option (List Char) :=
  if (l.takeWhile isPySpace).isEmpty then none else some (l.dropWhile isPySpace)

/-- Consume `\s*` (any whitespace, greedily). -/
def spaces0 (l : List Char) : List Char := l.dropWhile isPySpace

/-- Consume `\d+` (one or more digits, greedily), returning the value. -/
def digits1 (l : List Char) : Option (Nat × List Char) :=
  let ds := l.takeWhile Char.isDigit
  if ds.isEmpty then none else some (digitsVal ds, l.dropWhile Char.isDigit)

/-- Try a position matcher at every suffix, left to right: `re.search`. -/
def scanO {α : Type} (m : List Char → Option α) : List Char → Option α
  | [] => m []
  | c :: rest =>
    match m (c :: rest) with
    | some v => some v
    | none => scanO m rest

/-- Matcher for `for\s+(-?\d+)\s+yard` at the current position. -/
def matchForYards (l : List Char) : Option Int :=
  (dropLit "for" l).bind fun l1 =>
  (spaces1 l1).bind fun l2 =>
  let sign : Bool × List Char := match l2 with
    | '-' :: r => (true, r)
    | _ => (false, l2)
  (digits1 sign.2).bind fun nr =>
  (spaces1 nr.2).bind fun l4 =>
  (dropLit "yard" l4).map fun _ =>
  if sign.1 then -(nr.1 : Int) else (nr.1 : Int)

/-- `re.search(r'for\s+(-?\d+)\s+yard', s)`, first match value. -/
def scanForYards : List Char → Option Int := scanO matchForYards

/-- Matcher for `for\s+(\d+)\s+yard` (unsigned variant). -/
def matchForNatYards (l : List Char) : Option Nat :=
  (dropLit "for" l).bind fun l1 =>
  (spaces1 l1).bind fun l2 =>
  (digits1 l2).bind fun nr =>
  (spaces1 nr.2).bind fun l4 =>
  (dropLit "yard" l4).map fun _ => nr.1

/-- `re.search(r'for\s+(\d+)\s+yard', s)`, first match value. -/
def scanForNatYards : List Char → Option Nat := scanO matchForNatYards

/-- Matcher for `(\d+)\s+yard` at the current position. -/
def matchNatYard (l : List Char) : Option Nat :=
  (digits1 l).bind fun nr =>
  (spaces1 nr.2).bind fun l2 =>
  (dropLit "yard" l2).map fun _ => nr.1

/-- `re.search(r'(\d+)\s+yard', s)`, first match value. -/
def scanNatYard : List Char → Option Nat := scanO matchNatYard

/-- Matcher for `(\d+)\s*mph` at the current position. -/
def matchMph (l : List Char) : Option Nat :=
  (digits1 l).bind fun nr =>
  (dropLit "mph" (spaces0 nr.2)).map fun _ => nr.1

/-- `re.search(r'(\d+)\s*mph', s)`, first match value. -/
def scanMph : List Char → Option Nat := scanO matchMph

/-- `re.search(r'(\d+)\s*°?f?', s)`: the first maximal digit run
(everything after the digit group is optional). -/
def scanFirstNat : List Char → Option Nat := scanO (fun l => (digits1 l).map (·.1))

/-- Matcher for `(\d+)\s+yard\s+field\s+goal` at the current position. -/
def matchFgDistance (l : List Char) : Option Nat :=
  (digits1 l).bind fun nr =>
  (spaces1 nr.2).bind fun l2 =>
  (dropLit "yard" l2).bind fun l3 =>
  (spaces1 l3).bind fun l4 =>
  (dropLit "field" l4).bind fun l5 =>
  (spaces1 l5).bind fun l6 =>
  (dropLit "goal" l6).map fun _ => nr.1

/-- `re.search(r'(\d+)\s+yard\s+field\s+goal', s)`, first match value. -/
def scanFgDistance : List Char → Option Nat := scanO matchFgDistance

/-- Matcher for `punts\s+(\d+)\s+yard` at the current position. -/
def matchPuntDistance (l : List Char) : Option Nat :=
  (dropLit "punts" l).bind fun l1 =>
  (spaces1 l1).bind fun l2 =>
  (digits1 l2).bind fun nr =>
  (spaces1 nr.2).bind fun l4 =>
  (dropLit "yard" l4).map fun _ => nr.1

/-- `re.search(r'punts\s+(\d+)\s+yard', s)`, first match value. -/
def scanPuntDistance : List Char → Option Nat := scanO matchPuntDistance

/-- Character class `[A-Za-z\-]`. -/
def isNameChar (c : Char) : Bool := c.isAlpha || c == '-'

/-- Parse `[A-Z]\.[A-Za-z\-]+`, returning the consumed characters and the
rest of the input. -/
def parseName : List Char → Option (List Char × List Char)
  | u :: '.' :: r =>
    if u.isUpper then
      let ds := r.takeWhile isNameChar
      if ds.isEmpty then none else some (u :: '.' :: ds, r.dropWhile isNameChar)
    else none
  | _ => none

/-- Matcher for `to\s+([A-Z]\.[A-Za-z\-]+)` at the current position. -/
def matchPassTarget (l : List Char) : Option String :=
  (dropLit "to" l).bind fun l1 =>
  (spaces1 l1).bind fun l2 =>
  (parseName l2).map fun nm => String.mk nm.1

/-- `re.search(r'to\s+([A-Z]\.[A-Za-z\-]+)', s)`, first captured name. -/
def scanPassTarget : List Char → Option String := scanO matchPassTarget

/-- The `(?:,\s*[A-Z]\.[A-Za-z\-]+)*` tail of the defender list; `fuel`
bounds the recursion (each step consumes at least one character). -/
def parseMoreNames : Nat → List Char → List Char → Option (List Char × List Char)
  | 0, acc, rest => some (acc, rest)
  | fuel + 1, acc, rest =>
    match rest with
    | ',' :: r =>
      let sp := r.takeWhile isPySpace
      let r1 := r.dropWhile isPySpace
      match parseName r1 with
      | some nm => parseMoreNames fuel (acc ++ ',' :: sp ++ nm.1) nm.2
      | none => none
    | _ => some (acc, rest)

/-- Matcher for `\(([A-Z]\.[A-Za-z\-]+(?:,\s*[A-Z]\.[A-Za-z\-]+)*)\)`. -/
def matchParenNames (l : List Char) : Option String :=
  match l with
  | '(' :: r =>
    match parseName r with
    | some nm =>
      match parseMoreNames nm.2.length nm.1 nm.2 with
      | some cap =>
        match cap.2 with
        | ')' :: _ => some (String.mk cap.1)
        | _ => none
      | none => none
    | none => none
  | _ => none

/-- First parenthesised defender list in the description. -/
def scanParenNames : List Char → Option String := scanO matchParenNames

/-- Matcher for `\(([A-Z]\.[A-Za-z\-]+)\)` (single parenthesised name). -/
def matchSingleParenName (l : List Char) : Option String :=
  match l with
  | '(' :: r =>
    match parseName r with
    | some nm =>
      match nm.2 with
      | ')' :: _ => some (String.mk nm.1)
      | _ => none
    | none => none
  | _ => none

/-- First single parenthesised name in the description. -/
def scanSingleParenName : List Char → Option String := scanO matchSingleParenName

/-- `([A-Z]{2,3})-([A-Z]\.[A-Za-z\-]+)` under `re.IGNORECASE`: a 2- or
3-letter team code, `-`, and a name whose letters may be any case.  The
greedy `{2,3}` backtracks from three letters to two, which is spelled out
as the two explicit cases below. -/
def parseTeamDashName (l : List Char) : Option (List Char × List Char) :=
  match l with
  | a :: b :: rest =>
    if a.isAlpha && b.isAlpha then
      let finish : List Char → List Char → Option (List Char × List Char) :=
        fun team r =>
          match r with
          | u :: '.' :: r2 =>
            if u.isAlpha then
              let ds := r2.takeWhile isNameChar
              if ds.isEmpty then none else some (team, u :: '.' :: ds)
            else none
          | _ => none
      match rest with
      | c :: cs =>
        if c.isAlpha then
          match cs with
          | '-' :: r2 => finish [a, b, c] r2
          | _ => none
        else if c == '-' then finish [a, b] cs
        else none
      | [] => none
    else none
  | _ => none

/-- Matcher for `recovered by\s+([A-Z]{2,3})-([A-Z]\.[A-Za-z\-]+)`
(`re.IGNORECASE`), returning the `f"{team}-{player}"` string. -/
def matchRecoveredBy (l : List Char) : Option String :=
  (dropLitCI "recovered by" l).bind fun l1 =>
  (spaces1 l1).bind fun l2 =>
  (parseTeamDashName l2).map fun tn => String.mk (tn.1 ++ '-' :: tn.2)

/-- First `recovered by TEAM-Name` match in the description. -/
def scanRecoveredBy : List Char → Option String := scanO matchRecoveredBy

/-- Matcher for `penalty on\s+([A-Z]{2,3})-([A-Z]\.[A-Za-z\-]+)`
(`re.IGNORECASE`), returning the team and player captures. -/
def matchPenaltyOn (l : List Char) : Option (String × String) :=
  (dropLitCI "penalty on" l).bind fun l1 =>
  (spaces1 l1).bind fun l2 =>
  (parseTeamDashName l2).map fun tn => (String.mk tn.1, String.mk tn.2)

/-- First `penalty on TEAM-Name` match in the description. -/
def scanPenaltyOn : List Char → Option (String × String) := scanO matchPenaltyOn

/-- Output record of `_extract_play_details`. -/
structure PlayDetails where
  offensive_formation : Option String
  defensive_formation : Option String
  yards_gained : Option Int
  pass_length : Option String
  pass_location : Option String
  run_direction : Option String
deriving DecidableEq, Repr

/-- The `offensive_formations` dictionary, in insertion order. -/
def offensiveFormations : List (String × List String) :=
  [ ("shotgun", ["shotgun", "(shotgun)"]),
    ("i-formation", ["i-formation", "i formation", "(i-form)"]),
    ("singleback", ["singleback", "single back", "(singleback)"]),
    ("pistol", ["pistol", "(pistol)"]),
    ("wildcat", ["wildcat", "(wildcat)"]),
    ("empty", ["empty", "(empty)", "empty backfield"]),
    ("under-center", ["under center", "(under center)"]),
    ("ace", ["ace formation", "(ace)"]),
    ("strong", ["strong formation", "(strong)"]),
    ("weak", ["weak formation", "(weak)"]),
    ("jumbo", ["jumbo", "(jumbo)"]),
    ("goal-line", ["goal line", "goal-line", "(goal line)"]) ]

/-- First formation (in dictionary order) one of whose keyword variants
occurs in the lower-cased description. -/
def findFormation (dl : List Char) : Option String :=
  (offensiveFormations.find? fun p => p.2.any fun q => containsCL q.toList dl).map (·.1)

/-- `_extract_play_details` (db_utils.py lines 565-641). -/
def extract_play_details (description : String) : PlayDetails :=
  let base : PlayDetails := ⟨none, none, none, none, none, none⟩
  if description.isEmpty then base
  else
    let dl := lowerStr description
    let offensive_formation := findFormation dl
    let yards_gained : Option Int :=
      match scanForYards dl with
      | some y => some y
      | none => if containsCL (pat "no gain") dl then some 0 else none
    let isPass := containsCL (pat "pass") dl
    let pass_length : Option String :=
      if isPass then
        if containsCL (pat "short") dl then some "short"
        else if containsCL (pat "deep") dl then some "deep"
        else some "medium"
      else none
    let pass_location : Option String :=
      if isPass then
        if containsCL (pat "left") dl then some "left"
        else if containsCL (pat "right") dl then some "right"
        else if containsCL (pat "middle") dl then some "middle"
        else none
      else none
    let run_direction : Option String :=
      if containsCL (pat "rush") dl || containsCL (pat "run") dl then
        if containsCL (pat "left end") dl || containsCL (pat "left tackle") dl
            || containsCL (pat "left guard") dl then some "left"
        else if containsCL (pat "right end") dl || containsCL (pat "right tackle") dl
            || containsCL (pat "right guard") dl then some "right"
        else if containsCL (pat "middle") dl || containsCL (pat "center") dl then
          some "middle"
        else none
      else none
    ⟨offensive_formation, none, yards_gained, pass_length, pass_location, run_direction⟩

/-- Output record of `_extract_play_result_metrics`. -/
structure PlayResultMetrics where
  is_complete_pass : Option Bool
  is_touchdown_pass : Option Bool
  is_interception : Option Bool
  pass_target : Option String
  pass_defender : Option String
  is_sack : Option Bool
  sack_yards : Option Int
  quarterback_hit : Option Bool
  quarterback_scramble : Option Bool
  run_gap : Option String
  yards_after_contact : Option Int
  is_touchdown_run : Option Bool
  is_fumble : Option Bool
  fumble_recovered_by : Option String
  fumble_forced_by : Option String
  is_first_down : Option Bool
  is_turnover : Option Bool
  field_position_gained : Option Int
  is_penalty_on_play : Option Bool
  penalty_type : Option String
  penalty_team : Option String
  penalty_player : Option String
  penalty_yards : Option Nat
  penalty_declined : Option Bool
  penalty_offset : Option Bool
  penalty_no_play : Option Bool
  is_field_goal : Option Bool
  field_goal_distance : Option Nat
  field_goal_result : Option String
  is_punt : Option Bool
  punt_distance : Option Nat
  punt_return_yards : Option Nat
  is_kickoff : Option Bool
  kickoff_return_yards : Option Nat
  is_touchback : Option Bool
deriving DecidableEq, Repr

/-- The all-`None` initial result dictionary of `_extract_play_result_metrics`. -/
def emptyMetrics : PlayResultMetrics :=
  { is_complete_pass := none, is_touchdown_pass := none, is_interception := none,
    pass_target := none, pass_defender := none, is_sack := none, sack_yards := none,
    quarterback_hit := none, quarterback_scramble := none, run_gap := none,
    yards_after_contact := none, is_touchdown_run := none, is_fumble := none,
    fumble_recovered_by := none, fumble_forced_by := none, is_first_down := none,
    is_turnover := none, field_position_gained := none, is_penalty_on_play := none,
    penalty_type := none, penalty_team := none, penalty_player := none,
    penalty_yards := none, penalty_declined := none, penalty_offset := none,
    penalty_no_play := none, is_field_goal := none, field_goal_distance := none,
    field_goal_result := none, is_punt := none, punt_distance := none,
    punt_return_yards := none, is_kickoff := none, kickoff_return_yards := none,
    is_touchback := none }

/-- The `gaps` dictionary of the run-gap extraction, in insertion order. -/
def runGaps : List (String × List String) :=
  [ ("left end", ["left end", "swept left"]),
    ("left tackle", ["left tackle"]),
    ("left guard", ["left guard"]),
    ("middle", ["up the middle", "middle"]),
    ("right guard", ["right guard"]),
    ("right tackle", ["right tackle"]),
    ("right end", ["right end", "swept right"]) ]

/-- First run gap (in dictionary order) one of whose keyword variants
occurs in the lower-cased description. -/
def findGap (dl : List Char) : Option String :=
  (runGaps.find? fun p => p.2.any fun q => containsCL q.toList dl).map (·.1)

/-- The fixed `penalty_types` list, in order. -/
def penaltyTypes : List String :=
  [ "holding", "false start", "offside", "delay of game", "illegal formation",
    "pass interference", "roughing the passer", "unnecessary roughness",
    "facemask", "illegal contact", "illegal use of hands", "encroachment" ]

/-- Python `str.title()` for the ASCII penalty keywords: a letter following
a non-letter is upper-cased, a letter following a letter is lower-cased. -/
def titleCL : Bool → List Char → List Char
  | _, [] => []
  | prevAlpha, c :: r =>
    (if c.isAlpha then (if prevAlpha then c.toLower else c.toUpper) else c)
      :: titleCL c.isAlpha r

/-- Python `str.title()` on a string. -/
def titleStr (s : String) : String := String.mk (titleCL false s.toList)


/-- The touchdown check of `_extract_play_result_metrics`: `is_touchdown_pass`. -/
def mTouchdownPass (dl ptl : List Char) : Option Bool :=
  if containsCL (pat "touchdown") dl && containsCL (pat "pass") ptl then some true
  else none

/-- The touchdown check of `_extract_play_result_metrics`: `is_touchdown_run`
(the `elif` branch on the play type). -/
def mTouchdownRun (dl ptl : List Char) : Option Bool :=
  if containsCL (pat "touchdown") dl && !containsCL (pat "pass") ptl
      && (containsCL (pat "rush") ptl || containsCL (pat "run") ptl) then some true
  else none

/-- `'pass' in desc_lower and 'intercepted' in desc_lower`. -/
def mIntercepted (dl : List Char) : Bool :=
  containsCL (pat "pass") dl && containsCL (pat "intercepted") dl

/-- Final `is_complete_pass` value: the completion-status chain, then the
interception check overwrites it with `False`. -/
def mCompletePass (dl : List Char) : Option Bool :=
  if containsCL (pat "pass") dl then
    if mIntercepted dl then some false
    else if containsCL (pat "incomplete") dl then some false
    else if containsCL (pat "complete") dl
        || (containsCL (pat "for") dl && containsCL (pat "yard") dl) then some true
    else none
  else none

/-- `is_interception`. -/
def mInterception (dl : List Char) : Option Bool :=
  if mIntercepted dl then some true else none

/-- `pass_target` (regex on the original, case-preserved description). -/
def mPassTarget (dl orig : List Char) : Option String :=
  if containsCL (pat "pass") dl then scanPassTarget orig else none

/-- `pass_defender` (regex on the original, case-preserved description). -/
def mPassDefender (dl orig : List Char) : Option String :=
  if containsCL (pat "pass") dl then scanParenNames orig else none

/-- `quarterback_scramble`. -/
def mScramble (dl : List Char) : Option Bool :=
  if containsCL (pat "pass") dl && containsCL (pat "scramble") dl then some true
  else none

/-- `is_sack`. -/
def mSack (dl : List Char) : Option Bool :=
  if containsCL (pat "sacked") dl then some true else none

/-- `sack_yards = abs(first 'for N yard' number)`. -/
def mSackYards (dl : List Char) : Option Int :=
  if containsCL (pat "sacked") dl then
    (scanForYards dl).map fun y => (y.natAbs : Int)
  else none

/-- `run_gap`, guarded by rush-in-play-type / run-in-description and the
absence of `'pass'` in the description. -/
def mRunGap (dl ptl : List Char) : Option String :=
  if (containsCL (pat "rush") ptl || containsCL (pat "run") dl)
      && !containsCL (pat "pass") dl then findGap dl
  else none

/-- `is_fumble`. -/
def mFumble (dl : List Char) : Option Bool :=
  if containsCL (pat "fumble") dl then some true else none

/-- `fumble_recovered_by` (`recovered by TEAM-Name`, case-insensitive). -/
def mRecoveredBy (dl orig : List Char) : Option String :=
  if containsCL (pat "fumble") dl then scanRecoveredBy orig else none

/-- `fumble_forced_by` (single parenthesised name). -/
def mForcedBy (dl orig : List Char) : Option String :=
  if containsCL (pat "fumble") dl then scanSingleParenName orig else none

/-- `is_turnover`: set by an interception, or by a fumble with a recovery
match when the play type string is non-empty. -/
def mTurnover (dl orig : List Char) (play_type : String) : Option Bool :=
  if mIntercepted dl
      || (containsCL (pat "fumble") dl && (mRecoveredBy dl orig).isSome
          && !play_type.isEmpty) then some true
  else none

/-- `is_first_down`. -/
def mFirstDown (dl : List Char) : Option Bool :=
  if containsCL (pat "first down") dl || containsCL (pat "1st down") dl then
    some true
  else none

/-- `is_penalty_on_play`. -/
def mPenaltyFlag (dl : List Char) : Option Bool :=
  if containsCL (pat "penalty") dl then some true else none

/-- `penalty_type`: first fixed penalty keyword present, title-cased. -/
def mPenaltyType (dl : List Char) : Option String :=
  if containsCL (pat "penalty") dl then
    (penaltyTypes.find? fun s => containsCL s.toList dl).map titleStr
  else none

/-- The `penalty on TEAM-Name` match, when `'penalty'` is present. -/
def mPenaltyMatch (dl orig : List Char) : Option (String × String) :=
  if containsCL (pat "penalty") dl then scanPenaltyOn orig else none

/-- `penalty_yards`: first `N yard` number (the `'penalty' in desc_lower`
condition is re-checked and always true inside the block). -/
def mPenaltyYards (dl : List Char) : Option Nat :=
  if containsCL (pat "penalty") dl then scanNatYard dl else none

/-- `penalty_declined`. -/
def mPenaltyDeclined (dl : List Char) : Option Bool :=
  if containsCL (pat "penalty") dl && containsCL (pat "declined") dl then some true
  else none

/-- `penalty_offset`. -/
def mPenaltyOffset (dl : List Char) : Option Bool :=
  if containsCL (pat "penalty") dl && containsCL (pat "offsetting") dl then some true
  else none

/-- `penalty_no_play`. -/
def mPenaltyNoPlay (dl : List Char) : Option Bool :=
  if containsCL (pat "penalty") dl && containsCL (pat "no play") dl then some true
  else none

/-- Guard of the field-goal branch of the special-teams `if/elif` chain. -/
def mIsFg (dl : List Char) : Bool := containsCL (pat "field goal") dl

/-- Guard of the punt branch (`elif 'punt' in dl and 'punts' in dl`). -/
def mIsPunt (dl : List Char) : Bool :=
  !mIsFg dl && containsCL (pat "punt") dl && containsCL (pat "punts") dl

/-- Guard of the kickoff branch (`elif 'kickoff' in dl`). -/
def mIsKickoff (dl : List Char) : Bool :=
  !mIsFg dl && !(containsCL (pat "punt") dl && containsCL (pat "punts") dl)
    && containsCL (pat "kickoff") dl

/-- `field_goal_result`: keyword chain `'good'`, `'no good'`, `'blocked'`,
in exactly the order the code checks them. -/
def mFgResult (dl : List Char) : Option String :=
  if mIsFg dl then
    if containsCL (pat "good") dl then some "GOOD"
    else if containsCL (pat "no good") dl then some "NO GOOD"
    else if containsCL (pat "blocked") dl then some "BLOCKED"
    else none
  else none

/-- `field_goal_distance`. -/
def mFgDistance (dl : List Char) : Option Nat :=
  if mIsFg dl then scanFgDistance dl else none

/-- `punt_distance`. -/
def mPuntDistance (dl : List Char) : Option Nat :=
  if mIsPunt dl then scanPuntDistance dl else none

/-- `punt_return_yards` (`for N yard` when `'return'` is absent). -/
def mPuntReturnYards (dl : List Char) : Option Nat :=
  if mIsPunt dl && !containsCL (pat "return") dl then scanForNatYards dl else none

/-- `kickoff_return_yards`. -/
def mKickoffReturnYards (dl : List Char) : Option Nat :=
  if mIsKickoff dl then scanForNatYards dl else none

/-- `is_touchback`. -/
def mTouchback (dl : List Char) : Option Bool :=
  if mIsKickoff dl && containsCL (pat "touchback") dl then some true else none

/-- `_extract_play_result_metrics` (db_utils.py lines 839-1054), assembled
from the per-field helpers above (the original function fills one result
dictionary key by key; the helpers are those key computations). -/
def extract_play_result_metrics (description : String) (play_type : String) :
    PlayResultMetrics :=
  if description.isEmpty then emptyMetrics
  else
    let dl := lowerStr description
    let ptl := lowerStr play_type
    let orig := description.toList
    { is_complete_pass := mCompletePass dl,
      is_touchdown_pass := mTouchdownPass dl ptl,
      is_interception := mInterception dl,
      pass_target := mPassTarget dl orig,
      pass_defender := mPassDefender dl orig,
      is_sack := mSack dl,
      sack_yards := mSackYards dl,
      quarterback_hit := none,
      quarterback_scramble := mScramble dl,
      run_gap := mRunGap dl ptl,
      yards_after_contact := none,
      is_touchdown_run := mTouchdownRun dl ptl,
      is_fumble := mFumble dl,
      fumble_recovered_by := mRecoveredBy dl orig,
      fumble_forced_by := mForcedBy dl orig,
      is_first_down := mFirstDown dl,
      is_turnover := mTurnover dl orig play_type,
      field_position_gained := none,
      is_penalty_on_play := mPenaltyFlag dl,
      penalty_type := mPenaltyType dl,
      penalty_team := (mPenaltyMatch dl orig).map (fun x => x.1),
      penalty_player := (mPenaltyMatch dl orig).map (fun x => x.2),
      penalty_yards := mPenaltyYards dl,
      penalty_declined := mPenaltyDeclined dl,
      penalty_offset := mPenaltyOffset dl,
      penalty_no_play := mPenaltyNoPlay dl,
      is_field_goal := if mIsFg dl then some true else none,
      field_goal_distance := mFgDistance dl,
      field_goal_result := mFgResult dl,
      is_punt := if mIsPunt dl then some true else none,
      punt_distance := mPuntDistance dl,
      punt_return_yards := mPuntReturnYards dl,
      is_kickoff := if mIsKickoff dl then some true else none,
      kickoff_return_yards := mKickoffReturnYards dl,
      is_touchback := mTouchback dl }


/-- A game venue as consumed by `_calculate_weather_impact`. -/
structure Venue where
  roof_type : Option String
deriving DecidableEq, Repr

/-- Game metadata consumed by `_calculate_weather_impact`. -/
structure GameInfo where
  venue : Option Venue
  weather : Option String
deriving DecidableEq, Repr

/-- Output record of `_calculate_weather_impact`. -/
structure WeatherImpact where
  weather_impact_score : ℚ
  is_indoor_game : Option Bool
deriving DecidableEq, Repr

/-- `roof_type in ['DOME', 'RETRACTABLE_CLOSED', 'INDOOR']` (a missing roof
type is not in the list). -/
def isIndoorRoof : Option String → Bool
  | some r => r == "DOME" || r == "RETRACTABLE_CLOSED" || r == "INDOOR"
  | none => false

/-- Wind contribution to the impact score: thresholds on the first
`(\d+)\s*mph` number when `'wind'` is mentioned. -/
def windComponent (wl : List Char) : ℚ :=
  if containsCL (pat "wind") wl then
    match scanMph wl with
    | some w =>
      if 20 < w then 4/10 else if 15 < w then 3/10 else if 10 < w then 2/10 else 1/10
    | none => 0
  else 0

/-- Precipitation contribution (`rain`/`snow`/`sleet` keyword). -/
def precipComponent (wl : List Char) : ℚ :=
  if containsCL (pat "rain") wl || containsCL (pat "snow") wl
      || containsCL (pat "sleet") wl then 3/10
  else 0

/-- Temperature contribution: thresholds on the first number in the string
(the regex `(\d+)\s*°?f?` binds the first digit run, whatever it is). -/
def tempComponent (wl : List Char) : ℚ :=
  match scanFirstNat wl with
  | some t => if t < 32 then 2/10 else if t < 40 then 1/10 else if 90 < t then 1/10 else 0
  | none => 0

/-- The accumulated outdoor impact score, clamped above by 1
(`min(impact_score, 1.0)`, written as a conditional). -/
def weatherScore (weather : String) : ℚ :=
  let s := windComponent (lowerStr weather) + precipComponent (lowerStr weather)
    + tempComponent (lowerStr weather)
  if 1 ≤ s then 1 else s

/-- `_calculate_weather_impact` (db_utils.py lines 1303-1361). -/
def calculate_weather_impact (gi : Option GameInfo) : WeatherImpact :=
  match gi with
  | none => ⟨0, none⟩
  | some g =>
    match g.venue with
    | some ven =>
      if isIndoorRoof ven.roof_type then ⟨0, some true⟩
      else
        match g.weather with
        | none => ⟨0, some false⟩
        | some w => ⟨weatherScore w, some false⟩
    | none =>
      match g.weather with
      | none => ⟨0, none⟩
      | some w => ⟨weatherScore w, none⟩

/-- Output record of `_calculate_time_remaining`.  In the source the
`is_two_minute_drill` key is initialised to Python `False` (not `None`);
`Option Bool` is the value domain `{None} ∪ Bool` of the dictionary slot. -/
structure TimeRemaining where
  time_remaining_half : Option Int
  time_remaining_game : Option Int
  is_two_minute_drill : Option Bool
deriving DecidableEq, Repr

/-- `s.split(':')` on the character list: split at every separator
occurrence, keeping empty segments. -/
def splitOnColon : List Char → List (List Char)
  | [] => [[]]
  | c :: r =>
    if c == ':' then [] :: splitOnColon r
    else
      match splitOnColon r with
      | h :: t => (c :: h) :: t
      | [] => [[c]]

/-- Python `int(s)` for the clock fields: optional surrounding whitespace,
an optional sign, then one or more digits. -/
def pyInt (s : List Char) : Option Int :=
  let l := s.dropWhile isPySpace
  let core := l.takeWhile (fun c => !isPySpace c)
  let tail := l.dropWhile (fun c => !isPySpace c)
  if !(tail.dropWhile isPySpace).isEmpty then none
  else
    let signed : Bool × List Char := match core with
      | '-' :: r => (true, r)
      | '+' :: r => (false, r)
      | _ => (false, core)
    if signed.2.isEmpty || !signed.2.all Char.isDigit then none
    else if signed.1 then some (-(digitsVal signed.2 : Int))
    else some (digitsVal signed.2 : Int)

/-- The `try` block of `_calculate_time_remaining`: split the clock on
`':'`, convert the first two parts with `int`, and combine; any failure
(missing part or non-numeric text) raises and is caught. -/
def parseClock (clock : String) : Option Int :=
  match splitOnColon clock.toList with
  | p0 :: p1 :: _ =>
    match pyInt p0, pyInt p1 with
    | some m, some s => some (m * 60 + s)
    | _, _ => none
  | _ => none

/-- `_calculate_time_remaining` (db_utils.py lines 643-682). -/
def calculate_time_remaining (quarter : Option Int) (game_clock : Option String) :
    TimeRemaining :=
  let base : TimeRemaining := ⟨none, none, some false⟩
  match game_clock, quarter with
  | some clock, some q =>
    if clock.isEmpty || q == 0 then base
    else
      match parseClock clock with
      | none => base
      | some cs =>
        let half : Int := if q = 1 || q = 3 then cs + 900 else cs
        let game : Int :=
          if q = 1 then cs + 2700
          else if q = 2 then cs + 1800
          else if q = 3 then cs + 900
          else cs
        ⟨some half, some game, some (decide (half ≤ 120))⟩
  | _, _ => base

/-- One defensive player record as consumed by
`_analyze_defensive_personnel` (`.get` defaults are applied by `getD`). -/
structure PersonnelPlayer where
  position : Option String
  positionGroup : Option String
deriving DecidableEq, Repr

/-- Output record of `_analyze_defensive_personnel`. -/
structure DefensivePersonnel where
  defensive_formation : Option String
  defensive_package : Option String
  db_count : Nat
  lb_count : Nat
  dl_count : Nat
  box_count : Nat
deriving DecidableEq, Repr

/-- Count of players whose `positionGroup` equals the given group label. -/
def groupCount (grp : String) (players : List PersonnelPlayer) : Nat :=
  players.countP fun p => p.positionGroup.getD "" == grp

/-- `_analyze_defensive_personnel` (db_utils.py lines 765-837). -/
def analyze_defensive_personnel (players : List PersonnelPlayer) :
    DefensivePersonnel :=
  let base : DefensivePersonnel := ⟨none, none, 0, 0, 0, 0⟩
  if players.isEmpty then base
  else
    let dbc := groupCount "DB" players
    let lbc := groupCount "LB" players
    let dlc := groupCount "DL" players
    let pack : Option String :=
      if 6 ≤ dbc then some "dime"
      else if dbc = 5 then some "nickel"
      else if dbc = 4 then some "base"
      else if dbc ≤ 3 then some "heavy"
      else none
    let form : Option String :=
      if dlc = 4 then
        if lbc = 3 then some "4-3"
        else if lbc = 2 then some "4-2-5"
        else if lbc = 1 then some "4-1-6"
        else none
      else if dlc = 3 then
        if lbc = 4 then some "3-4"
        else if lbc = 3 then some "3-3-5"
        else if lbc = 2 then some "3-2-6"
        else none
      else if dlc = 2 then
        if lbc = 4 then some "2-4-5" else none
      else if dlc = 5 then some "5-2"
      else if dlc = 6 then some "6-1"
      else none
    let hasSS := players.any fun p => p.position.getD "" == "SS"
    ⟨form, pack, dbc, lbc, dlc, dlc + lbc + (if hasSS then 1 else 0)⟩


/-- Nested play detail visible to `_calculate_drive_context`. -/
structure SummaryPlay where
  absolute_yardline_number : Option Int
  time_of_day_utc : Option String
deriving DecidableEq, Repr

/-- A play summary (`play.summary`), holding the detailed play record. -/
structure PlaySummary where
  play : Option SummaryPlay
deriving DecidableEq, Repr

/-- A play element of the game play list, as consumed by the
game-context engine. -/
structure CtxPlay where
  possession_team_id : Option String
  summary : Option PlaySummary
deriving DecidableEq, Repr

/-- Output record of `_calculate_drive_context`. -/
structure DriveContext where
  drive_number : Nat
  drive_play_number : Nat
  drive_start_yardline : Option Int
  drive_time_of_possession : Option Int
  drive_plays_so_far : Nat
deriving DecidableEq, Repr

/-- `s.replace('Z', '+00:00')`. -/
def zReplace : List Char → List Char
  | [] => []
  | 'Z' :: r => '+' :: '0' :: '0' :: ':' :: '0' :: '0' :: zReplace r
  | c :: r => c :: zReplace r

/-- Parse exactly two digits. -/
def parse2 : List Char → Option (Nat × List Char)
  | a :: b :: r =>
    if a.isDigit && b.isDigit then some (digitsVal [a, b], r) else none
  | _ => none

/-- Parse exactly four digits. -/
def parse4 : List Char → Option (Nat × List Char)
  | a :: b :: c :: d :: r =>
    if a.isDigit && b.isDigit && c.isDigit && d.isDigit then
      some (digitsVal [a, b, c, d], r)
    else none
  | _ => none

/-- Consume one expected character. -/
def expectChar (c : Char) : List Char → Option (List Char)
  | x :: r => if x == c then some r else none
  | [] => none

/-- Proleptic-Gregorian leap year. -/
def isLeapYear (y : Nat) : Bool := (y % 4 == 0 && y % 100 != 0) || y % 400 == 0

/-- Length of a month. -/
def daysInMonth (y m : Nat) : Nat :=
  if m = 2 then (if isLeapYear y then 29 else 28)
  else if m = 4 || m = 6 || m = 9 || m = 11 then 30
  else 31

/-- Days in year `y` before month `m`. -/
def daysBeforeMonth (y m : Nat) : Nat :=
  (List.range (m - 1)).foldl (fun a i => a + daysInMonth y (i + 1)) 0

/-- Days between 0001-01-01 and the given date. -/
def epochDays (y m d : Nat) : Nat :=
  365 * (y - 1) + (y - 1) / 4 - (y - 1) / 100 + (y - 1) / 400
    + daysBeforeMonth y m + (d - 1)

/-- Optional fractional-second part `.ffffff` (one to six digits),
returning microseconds. -/
def parseFrac : List Char → Option (Nat × List Char)
  | '.' :: r =>
    let ds := r.takeWhile Char.isDigit
    if ds.isEmpty || 6 < ds.length then none
    else some (digitsVal ds * 10 ^ (6 - ds.length), r.dropWhile Char.isDigit)
  | r => some (0, r)

/-- A trailing UTC offset `±HH:MM` (the input must end with it);
returns the signed offset in seconds. -/
def parseOffset (l : List Char) : Option Int :=
  match l with
  | s :: r =>
    if s == '+' || s == '-' then
      (parse2 r).bind fun oh =>
      (expectChar ':' oh.2).bind fun r2 =>
      (parse2 r2).bind fun om =>
      if !om.2.isEmpty then none
      else if 23 < oh.1 || 59 < om.1 then none
      else
        let secs : Int := (oh.1 : Int) * 3600 + (om.1 : Int) * 60
        some (if s == '-' then -secs else secs)
    else none
  | [] => none

/-- `datetime.fromisoformat` on the `Z`-replaced timestamp, reduced to
microseconds since 0001-01-01 in UTC, plus an awareness flag (a timestamp
with a UTC offset is aware; mixing aware and naive operands in the
subtraction raises, which the embedding reports as `none`). -/
def parseIsoMicro (l : List Char) : Option (Int × Bool) :=
  (parse4 l).bind fun y =>
  (expectChar '-' y.2).bind fun r1 =>
  (parse2 r1).bind fun mo =>
  (expectChar '-' mo.2).bind fun r2 =>
  (parse2 r2).bind fun d =>
  if y.1 = 0 || mo.1 = 0 || 12 < mo.1 || d.1 = 0 || daysInMonth y.1 mo.1 < d.1 then
    none
  else
    let dateMicro : Int := (epochDays y.1 mo.1 d.1 : Int) * 86400000000
    match d.2 with
    | [] => some (dateMicro, false)
    | sep :: r3 =>
      if sep == 'T' || sep == ' ' then
        (parse2 r3).bind fun h =>
        (expectChar ':' h.2).bind fun r4 =>
        (parse2 r4).bind fun mi =>
        if 23 < h.1 || 59 < mi.1 then none
        else
          let secPart : Option (Nat × Nat × List Char) :=
            match mi.2 with
            | ':' :: r5 =>
              (parse2 r5).bind fun s =>
              if 59 < s.1 then none
              else (parseFrac s.2).map fun fr => (s.1, fr.1, fr.2)
            | r5 => some (0, 0, r5)
          secPart.bind fun sp =>
          let tMicro : Int := dateMicro
            + ((h.1 : Int) * 3600 + (mi.1 : Int) * 60 + (sp.1 : Int)) * 1000000
            + (sp.2.1 : Int)
          match sp.2.2 with
          | [] => some (tMicro, false)
          | rest =>
            (parseOffset rest).map fun off => (tMicro - off * 1000000, true)
      else none

/-- Timestamp string to microseconds, after the `'Z' → '+00:00'` rewrite. -/
def parseTsMicro (s : String) : Option (Int × Bool) :=
  parseIsoMicro (zReplace s.toList)

/-- `int(x)` on the exact quotient `d / 1000000`: truncation toward zero. -/
def truncSeconds (d : Int) : Int :=
  if 0 ≤ d then ((d.toNat / 1000000 : Nat) : Int)
  else -(((-d).toNat / 1000000 : Nat) : Int)

/-- `int((start - current).total_seconds())` with the enclosing
`try/except`: both timestamps must parse and agree on awareness. -/
def timeDiffSeconds (s1 s2 : String) : Option Int :=
  match parseTsMicro s1, parseTsMicro s2 with
  | some t1, some t2 =>
    if t1.2 == t2.2 then some (truncSeconds (t1.1 - t2.1)) else none
  | _, _ => none

/-- The backward walk of `_calculate_drive_context`: processes the plays
before the current one (latest first), counting plays while the possession
team is unchanged and repeatedly overwriting the drive-start yardline and
timestamp whenever the inspected play carries a summary, so that the final
values come from the earliest such play of the drive. -/
def driveBack (team : Option String) :
    List CtxPlay → Nat × Option Int × Option String → Nat × Option Int × Option String
  | [], acc => acc
  | p :: rest, acc =>
    if p.possession_team_id == team then
      let acc2 : Nat × Option Int × Option String :=
        match p.summary with
        | some su =>
          match su.play with
          | some sp => (acc.1 + 1, sp.absolute_yardline_number, sp.time_of_day_utc)
          | none => (acc.1 + 1, acc.2.1, acc.2.2)
        | none => (acc.1 + 1, acc.2.1, acc.2.2)
      driveBack team rest acc2
    else acc

/-- Python truthiness of the possession-team id (`None` and `''` are falsy). -/
def truthyId : Option String → Bool
  | some s => !s.isEmpty
  | none => false

/-- The possession-change count over consecutive pairs of the play prefix. -/
def countChanges : List CtxPlay → Nat
  | a :: b :: rest =>
    (if b.possession_team_id != a.possession_team_id
        && truthyId b.possession_team_id && truthyId a.possession_team_id then 1
     else 0) + countChanges (b :: rest)
  | _ => 0

/-- `_calculate_drive_context` (db_utils.py lines 1129-1184). -/
def calculate_drive_context (game_plays : List CtxPlay) (idx : Nat)
    (current : CtxPlay) : DriveContext :=
  let base : DriveContext := ⟨1, 1, none, none, 1⟩
  if idx = 0 then base
  else
    let r := driveBack current.possession_team_id ((game_plays.take idx).reverse)
      (1, none, none)
    let dn := 1 + countChanges (game_plays.take idx)
    let dtop : Option Int :=
      match r.2.2 with
      | some st =>
        if st.isEmpty then none
        else
          match current.summary with
          | some su =>
            match su.play with
            | some sp =>
              match sp.time_of_day_utc with
              | some cur => timeDiffSeconds st cur
              | none => none
            | none => none
          | none => none
      | none => none
    ⟨dn, r.1, r.2.1, dtop, r.1⟩


/-- A stored game row (`DBGame`), restricted to the columns the historical
aggregator reads. -/
structure DBGame where
  id : Nat
  home_team_id : String
  away_team_id : String
  season : Int
  date : String
  home_score_total : Int
  away_score_total : Int
deriving DecidableEq, Repr

/-- A stored play row (`DBPlay`), restricted to the columns the historical
aggregator reads. -/
structure DBPlay where
  game_id : Nat
  possession_team_id : Option String
  play_type : Option String
  yards_gained : Option Int
  down : Option Int
  is_first_down : Option Bool
  is_redzone_play : Option Bool
  is_touchdown_pass : Option Bool
  is_touchdown_run : Option Bool
  is_turnover : Option Bool
  is_sack : Option Bool
deriving DecidableEq, Repr

/-- The queryable relational store (the session's games and plays tables). -/
structure Store where
  games : List DBGame
  plays : List DBPlay
deriving Repr

/-- Python truthiness of a nullable boolean column. -/
def truthyB : Option Bool → Bool
  | some b => b
  | none => false

/-- Raw (case-sensitive) substring containment on strings:
`'pass' in (play.play_type or '')`. -/
def hasSubstr (s : String) (p : String) : Bool := containsCL p.toList s.toList

/-- The `WHERE` clause of the `_calculate_team_stats` query: the team plays
in the game, same season, and the game date is strictly before the target
date (string comparison, as on the ISO date column). -/
def qualifiesForTeam (team_id game_date : String) (season : Int) (g : DBGame) :
    Bool :=
  (g.home_team_id == team_id || g.away_team_id == team_id)
    && g.season == season && decide (g.date < game_date)

/-- Insert by descending date (`ORDER BY date DESC`). -/
def insertByDateDesc (g : DBGame) : List DBGame → List DBGame
  | [] => [g]
  | h :: t => if h.date < g.date then g :: h :: t else h :: insertByDateDesc g t

/-- Sort by descending date. -/
def sortByDateDesc (l : List DBGame) : List DBGame :=
  l.foldr insertByDateDesc []

/-- The ordered list of qualifying prior games for a team. -/
def teamGamesQuery (store : Store) (team_id game_date : String) (season : Int) :
    List DBGame :=
  sortByDateDesc (store.games.filter (qualifiesForTeam team_id game_date season))

/-- Accumulated play- and game-level totals of `_calculate_team_stats`. -/
structure StatTotals where
  points : Int
  points_allowed : Int
  yards : Int
  pass_yards : Int
  rush_yards : Int
  yards_allowed : Int
  pass_yards_allowed : Int
  rush_yards_allowed : Int
  third_down_attempts : Int
  third_down_conversions : Int
  third_down_def_attempts : Int
  third_down_def_stops : Int
  red_zone_attempts : Int
  red_zone_tds : Int
  red_zone_def_attempts : Int
  red_zone_def_stops : Int
  turnovers_committed : Int
  turnovers_forced : Int
  sacks_allowed : Int
  sacks_forced : Int
deriving DecidableEq

/-- All-zero totals. -/
def initTotals : StatTotals := ⟨0, 0, 0, 0, 0, 0, 0, 0, 0, 0, 0, 0, 0, 0, 0, 0, 0, 0, 0, 0⟩

/-- Offensive per-play updates (the team had possession). -/
def offUpdate (t : StatTotals) (p : DBPlay) (yg : Int) : StatTotals :=
  let pt := p.play_type.getD ""
  { t with
    yards := t.yards + yg,
    pass_yards := t.pass_yards + (if hasSubstr pt "pass" then max 0 yg else 0),
    rush_yards := t.rush_yards
      + (if !hasSubstr pt "pass" && hasSubstr pt "rush" then max 0 yg else 0),
    third_down_attempts := t.third_down_attempts
      + (if p.down == some 3 then 1 else 0),
    third_down_conversions := t.third_down_conversions
      + (if p.down == some 3 && truthyB p.is_first_down then 1 else 0),
    red_zone_attempts := t.red_zone_attempts
      + (if truthyB p.is_redzone_play then 1 else 0),
    red_zone_tds := t.red_zone_tds
      + (if truthyB p.is_redzone_play
            && (truthyB p.is_touchdown_pass || truthyB p.is_touchdown_run) then 1
         else 0),
    turnovers_committed := t.turnovers_committed
      + (if truthyB p.is_turnover then 1 else 0),
    sacks_allowed := t.sacks_allowed + (if truthyB p.is_sack then 1 else 0) }

/-- Defensive per-play updates (the opponent had possession). -/
def defUpdate (t : StatTotals) (p : DBPlay) (yg : Int) : StatTotals :=
  let pt := p.play_type.getD ""
  { t with
    yards_allowed := t.yards_allowed + yg,
    pass_yards_allowed := t.pass_yards_allowed
      + (if hasSubstr pt "pass" then max 0 yg else 0),
    rush_yards_allowed := t.rush_yards_allowed
      + (if !hasSubstr pt "pass" && hasSubstr pt "rush" then max 0 yg else 0),
    third_down_def_attempts := t.third_down_def_attempts
      + (if p.down == some 3 then 1 else 0),
    third_down_def_stops := t.third_down_def_stops
      + (if p.down == some 3 && !truthyB p.is_first_down then 1 else 0),
    red_zone_def_attempts := t.red_zone_def_attempts
      + (if truthyB p.is_redzone_play then 1 else 0),
    red_zone_def_stops := t.red_zone_def_stops
      + (if truthyB p.is_redzone_play
            && !(truthyB p.is_touchdown_pass || truthyB p.is_touchdown_run) then 1
         else 0),
    turnovers_forced := t.turnovers_forced
      + (if truthyB p.is_turnover then 1 else 0),
    sacks_forced := t.sacks_forced + (if truthyB p.is_sack then 1 else 0) }

/-- One play of a prior game: plays without a `yards_gained` value are
skipped entirely (`if not play.yards_gained and play.yards_gained != 0`). -/
def playAccum (team_id : String) (t : StatTotals) (p : DBPlay) : StatTotals :=
  match p.yards_gained with
  | none => t
  | some yg =>
    if p.possession_team_id == some team_id then offUpdate t p yg
    else defUpdate t p yg

/-- One prior game: add the final score from the team's perspective, then
scan all of the game's plays. -/
def gameAccum (store : Store) (team_id : String) (t : StatTotals) (g : DBGame) :
    StatTotals :=
  let withPoints :=
    if g.home_team_id == team_id then
      { t with points := t.points + g.home_score_total,
               points_allowed := t.points_allowed + g.away_score_total }
    else
      { t with points := t.points + g.away_score_total,
               points_allowed := t.points_allowed + g.home_score_total }
  (store.plays.filter fun p => p.game_id == g.id).foldl (playAccum team_id)
    withPoints

/-- Wins, points scored and points allowed over a list of recent games. -/
def recentForm (team_id : String) (gs : List DBGame) : Int × Int × Int :=
  gs.foldl
    (fun acc g =>
      let wasHome := g.home_team_id == team_id
      let ps := if wasHome then g.home_score_total else g.away_score_total
      let pa := if wasHome then g.away_score_total else g.home_score_total
      (acc.1 + (if pa < ps then 1 else 0), acc.2.1 + ps, acc.2.2 + pa))
    (0, 0, 0)

/-- Output record of `_calculate_team_stats` (floats as exact rationals). -/
structure TeamStats where
  points_per_game : ℚ
  yards_per_game : ℚ
  pass_yards_per_game : ℚ
  rush_yards_per_game : ℚ
  third_down_pct : ℚ
  red_zone_pct : ℚ
  turnover_rate : ℚ
  time_of_possession : ℚ
  points_allowed_per_game : ℚ
  yards_allowed_per_game : ℚ
  pass_yards_allowed_per_game : ℚ
  rush_yards_allowed_per_game : ℚ
  third_down_def_pct : ℚ
  red_zone_def_pct : ℚ
  takeaway_rate : ℚ
  sacks_per_game : ℚ
  last3_wins : Int
  last3_points_per_game : ℚ
  last3_points_allowed : ℚ
  last5_wins : Int
  last5_points_per_game : ℚ
  last5_points_allowed : ℚ
deriving DecidableEq

/-- The initial all-zero result dictionary of `_calculate_team_stats`. -/
def defaultTeamStats : TeamStats :=
  ⟨0, 0, 0, 0, 0, 0, 0, 0, 0, 0, 0, 0, 0, 0, 0, 0, 0, 0, 0, 0, 0, 0⟩

/-- `_calculate_team_stats` (db_utils.py lines 1416-1651). -/
def calculate_team_stats (store : Store) (team_id game_date : String)
    (season : Int) : TeamStats :=
  let team_games := teamGamesQuery store team_id game_date season
  if team_games.isEmpty then defaultTeamStats
  else
    let t := team_games.foldl (gameAccum store team_id) initTotals
    let gc : ℚ := (team_games.length : ℚ)
    let base : TeamStats :=
      { points_per_game := (t.points : ℚ) / gc,
        yards_per_game := (t.yards : ℚ) / gc,
        pass_yards_per_game := (t.pass_yards : ℚ) / gc,
        rush_yards_per_game := (t.rush_yards : ℚ) / gc,
        third_down_pct :=
          if 0 < t.third_down_attempts then
            (t.third_down_conversions : ℚ) / (t.third_down_attempts : ℚ) * 100
          else 0,
        red_zone_pct :=
          if 0 < t.red_zone_attempts then
            (t.red_zone_tds : ℚ) / (t.red_zone_attempts : ℚ) * 100
          else 0,
        turnover_rate := (t.turnovers_committed : ℚ) / gc,
        time_of_possession := 0,
        points_allowed_per_game := (t.points_allowed : ℚ) / gc,
        yards_allowed_per_game := (t.yards_allowed : ℚ) / gc,
        pass_yards_allowed_per_game := (t.pass_yards_allowed : ℚ) / gc,
        rush_yards_allowed_per_game := (t.rush_yards_allowed : ℚ) / gc,
        third_down_def_pct :=
          if 0 < t.third_down_def_attempts then
            (t.third_down_def_stops : ℚ) / (t.third_down_def_attempts : ℚ) * 100
          else 0,
        red_zone_def_pct :=
          if 0 < t.red_zone_def_attempts then
            (t.red_zone_def_stops : ℚ) / (t.red_zone_def_attempts : ℚ) * 100
          else 0,
        takeaway_rate := (t.turnovers_forced : ℚ) / gc,
        sacks_per_game := (t.sacks_forced : ℚ) / gc,
        last3_wins := 0, last3_points_per_game := 0, last3_points_allowed := 0,
        last5_wins := 0, last5_points_per_game := 0, last5_points_allowed := 0 }
    let s3 :=
      if 3 ≤ team_games.length then
        let f := recentForm team_id (team_games.take 3)
        { base with last3_wins := f.1,
                    last3_points_per_game := (f.2.1 : ℚ) / 3,
                    last3_points_allowed := (f.2.2 : ℚ) / 3 }
      else base
    if 5 ≤ team_games.length then
      let f := recentForm team_id (team_games.take 5)
      { s3 with last5_wins := f.1,
                last5_points_per_game := (f.2.1 : ℚ) / 5,
                last5_points_allowed := (f.2.2 : ℚ) / 5 }
    else s3

/-- Output record of `_calculate_head_to_head_stats`. -/
structure H2HStats where
  head_to_head_home_wins : Nat
  head_to_head_away_wins : Nat
  head_to_head_avg_total_points : ℚ
deriving DecidableEq

/-- The `WHERE` clause of the head-to-head query: the two teams met in
either home/away order, before the target date. -/
def isH2HGame (home_id away_id game_date : String) (g : DBGame) : Bool :=
  ((g.home_team_id == home_id && g.away_team_id == away_id)
      || (g.home_team_id == away_id && g.away_team_id == home_id))
    && decide (g.date < game_date)

/-- The up-to-10 most recent prior meetings (`ORDER BY date DESC LIMIT 10`). -/
def h2hQuery (store : Store) (home_id away_id game_date : String) : List DBGame :=
  (sortByDateDesc (store.games.filter (isH2HGame home_id away_id game_date))).take
    10

/-- The per-meeting attribution of `_calculate_head_to_head_stats`: the
meeting counts as a win for the current home side exactly when the team now
at home out-scored the other side in it; every other meeting — including a
tie — falls to the `else` branch, a win for the current away side. -/
def h2hHomeWin (home_id : String) (g : DBGame) : Bool :=
  if g.home_team_id == home_id then
    decide (g.away_score_total < g.home_score_total)
  else
    decide (g.home_score_total < g.away_score_total)

/-- `_calculate_head_to_head_stats` (db_utils.py lines 1653-1703). -/
def calculate_head_to_head_stats (store : Store) (home_id away_id game_date : String) :
    H2HStats :=
  let gs := h2hQuery store home_id away_id game_date
  if gs.isEmpty then ⟨0, 0, 0⟩
  else
    let hw := gs.countP (h2hHomeWin home_id)
    let aw := gs.countP fun g => !h2hHomeWin home_id g
    let tp : Int :=
      gs.foldl (fun a g => a + g.home_score_total + g.away_score_total) 0
    ⟨hw, aw, (tp : ℚ) / (gs.length : ℚ)⟩


/-! ### Helper lemmas -/

/-- On a non-empty description the metrics extractor is exactly the record
of its per-field helpers. -/
lemma extract_play_result_metrics_eq (d t : String) (h : d.isEmpty = false) :
    extract_play_result_metrics d t =
      { is_complete_pass := mCompletePass (lowerStr d),
        is_touchdown_pass := mTouchdownPass (lowerStr d) (lowerStr t),
        is_interception := mInterception (lowerStr d),
        pass_target := mPassTarget (lowerStr d) d.toList,
        pass_defender := mPassDefender (lowerStr d) d.toList,
        is_sack := mSack (lowerStr d),
        sack_yards := mSackYards (lowerStr d),
        quarterback_hit := none,
        quarterback_scramble := mScramble (lowerStr d),
        run_gap := mRunGap (lowerStr d) (lowerStr t),
        yards_after_contact := none,
        is_touchdown_run := mTouchdownRun (lowerStr d) (lowerStr t),
        is_fumble := mFumble (lowerStr d),
        fumble_recovered_by := mRecoveredBy (lowerStr d) d.toList,
        fumble_forced_by := mForcedBy (lowerStr d) d.toList,
        is_first_down := mFirstDown (lowerStr d),
        is_turnover := mTurnover (lowerStr d) d.toList t,
        field_position_gained := none,
        is_penalty_on_play := mPenaltyFlag (lowerStr d),
        penalty_type := mPenaltyType (lowerStr d),
        penalty_team := (mPenaltyMatch (lowerStr d) d.toList).map (fun x => x.1),
        penalty_player := (mPenaltyMatch (lowerStr d) d.toList).map (fun x => x.2),
        penalty_yards := mPenaltyYards (lowerStr d),
        penalty_declined := mPenaltyDeclined (lowerStr d),
        penalty_offset := mPenaltyOffset (lowerStr d),
        penalty_no_play := mPenaltyNoPlay (lowerStr d),
        is_field_goal := if mIsFg (lowerStr d) then some true else none,
        field_goal_distance := mFgDistance (lowerStr d),
        field_goal_result := mFgResult (lowerStr d),
        is_punt := if mIsPunt (lowerStr d) then some true else none,
        punt_distance := mPuntDistance (lowerStr d),
        punt_return_yards := mPuntReturnYards (lowerStr d),
        is_kickoff := if mIsKickoff (lowerStr d) then some true else none,
        kickoff_return_yards := mKickoffReturnYards (lowerStr d),
        is_touchback := mTouchback (lowerStr d) } := by
  simp [extract_play_result_metrics, h]

/-! ### Claim theorems -/

/-- C1: the two description extractors are embedded as pure functions of
the description (and play-type) strings alone — no store, no mutable
state — so applying either of them twice to the same input yields equal
results, and re-running the engine on the same play sequence reproduces
the same derived output. -/
theorem extraction_deterministic (d t : String) :
    extract_play_details d = extract_play_details d
      ∧ extract_play_result_metrics d t = extract_play_result_metrics d t :=
  ⟨rfl, rfl⟩

/-- C4 (code bug): on a field-goal description carrying the phrase
`"no good"`, the extractor still reports `is_field_goal` and the distance
from the first `N yard field goal` match, but the result keyword chain
tests `'good'` before `'no good'`; since `"no good"` contains `"good"` as
a substring, the `NO GOOD` branch is unreachable and the code returns
`GOOD` where the claim (and the dead branch itself) say `NO GOOD`. -/
theorem field_goal_no_good_bug :
    (extract_play_result_metrics "J.Tucker 28 yard field goal is No Good." "field_goal").is_field_goal
        = some true
      ∧ (extract_play_result_metrics "J.Tucker 28 yard field goal is No Good." "field_goal").field_goal_distance
        = some 28
      ∧ (extract_play_result_metrics "J.Tucker 28 yard field goal is No Good." "field_goal").field_goal_result
        = some "GOOD" := by
  refine ⟨?_, ?_, ?_⟩ <;> decide

/-- C6: on the literal pass-play description, the two extractors produce
exactly the claimed field values (the play-type argument is irrelevant to
every claimed metrics field). -/
theorem pass_play_literal_extraction (t : String) :
    (extract_play_details "(Shotgun) P.Mahomes pass short right to T.Kelce for 12 yards (D.White).").offensive_formation
        = some "shotgun"
      ∧ (extract_play_details "(Shotgun) P.Mahomes pass short right to T.Kelce for 12 yards (D.White).").yards_gained
        = some 12
      ∧ (extract_play_details "(Shotgun) P.Mahomes pass short right to T.Kelce for 12 yards (D.White).").pass_length
        = some "short"
      ∧ (extract_play_details "(Shotgun) P.Mahomes pass short right to T.Kelce for 12 yards (D.White).").pass_location
        = some "right"
      ∧ (extract_play_result_metrics "(Shotgun) P.Mahomes pass short right to T.Kelce for 12 yards (D.White)." t).is_complete_pass
        = some true
      ∧ (extract_play_result_metrics "(Shotgun) P.Mahomes pass short right to T.Kelce for 12 yards (D.White)." t).pass_target
        = some "T.Kelce"
      ∧ (extract_play_result_metrics "(Shotgun) P.Mahomes pass short right to T.Kelce for 12 yards (D.White)." t).pass_defender
        = some "D.White" := by
  have hm := extract_play_result_metrics_eq
    "(Shotgun) P.Mahomes pass short right to T.Kelce for 12 yards (D.White)." t rfl
  refine ⟨by decide, by decide, by decide, by decide, ?_, ?_, ?_⟩ <;> rw [hm]
  · show mCompletePass
        (lowerStr "(Shotgun) P.Mahomes pass short right to T.Kelce for 12 yards (D.White).")
      = some true
    decide
  · show mPassTarget
        (lowerStr "(Shotgun) P.Mahomes pass short right to T.Kelce for 12 yards (D.White).")
        (String.toList "(Shotgun) P.Mahomes pass short right to T.Kelce for 12 yards (D.White).")
      = some "T.Kelce"
    decide
  · show mPassDefender
        (lowerStr "(Shotgun) P.Mahomes pass short right to T.Kelce for 12 yards (D.White).")
        (String.toList "(Shotgun) P.Mahomes pass short right to T.Kelce for 12 yards (D.White).")
      = some "D.White"
    decide

/-- C5 (counterexample): `_extract_play_details` guards its run-direction
block only by `'rush' in desc or 'run' in desc` — it never checks that
`'pass'` is absent — so a description that contains `"pass"` (and the
substring `"run"`, here inside the player names and `"runs"`) still gets a
populated `run_direction`, contradicting the claim that it is null. -/
theorem run_direction_pass_cex :
    (extract_play_details "J.Doe pass short left to K.Runyan, lateral to B.Hill who runs right end for 5 yards.").run_direction
      = some "right" := by
  decide

/-- C5 (amended): only the `run_gap` field of
`_extract_play_result_metrics` carries the pass-absence guard: for every
description containing `"pass"` (lower-cased) and every play type,
`run_gap` is null; `run_direction` from `_extract_play_details` is not so
guarded. -/
theorem run_gap_null_when_pass (d t : String)
    (h : containsCL (pat "pass") (lowerStr d) = true) :
    (extract_play_result_metrics d t).run_gap = none := by
  by_cases he : d.isEmpty
  · simp [extract_play_result_metrics, he, emptyMetrics]
  · rw [extract_play_result_metrics_eq _ t (by simp [he])]
    simp [mRunGap, h]

/-- Witness for C5's amended theorem at a concrete input. -/
theorem run_gap_null_when_pass_witness :
    (extract_play_result_metrics "J.Doe pass short left to K.Runyan, lateral to B.Hill who runs right end for 5 yards." "pass_short").run_gap
      = none :=
  run_gap_null_when_pass _ _ (by decide)

/-- C3 (counterexample): on an unparseable clock the calculator leaves the
two time fields null but returns `is_two_minute_drill` as its initialised
Python `False` — not null as the claim states. -/
theorem time_remaining_two_minute_cex :
    calculate_time_remaining (some 1) (some "abc")
        = ⟨none, none, some false⟩
      ∧ (calculate_time_remaining (some 1) (some "abc")).is_two_minute_drill
        ≠ none := by
  refine ⟨?_, ?_⟩ <;> decide

/-- C3 (amended): whenever the clock is missing, empty or unparseable, or
the quarter is missing (or zero, also falsy in Python), the calculator
raises no exception and returns null `time_remaining_half` and
`time_remaining_game` together with `is_two_minute_drill = False` (its
initialised default, not null). -/
theorem time_remaining_parse_failure (q : Option Int) (c : Option String)
    (h : c = none ∨ c = some "" ∨ q = none ∨ q = some 0
      ∨ ∃ s, c = some s ∧ parseClock s = none) :
    calculate_time_remaining q c = ⟨none, none, some false⟩ := by
  rcases h with h | h | h | h | ⟨s, hc, hp⟩
  · subst h; cases q <;> rfl
  · subst h; cases q <;> rfl
  · subst h; cases c <;> rfl
  · subst h; cases c <;> simp [calculate_time_remaining]
  · subst hc
    cases q with
    | none => rfl
    | some qq =>
      simp only [calculate_time_remaining]
      split
      · rfl
      · rw [hp]

/-- Witness for C3's amended theorem at a concrete input. -/
theorem time_remaining_parse_failure_witness :
    calculate_time_remaining (some 2) (some "9:zz") = ⟨none, none, some false⟩ :=
  time_remaining_parse_failure _ _
    (Or.inr (Or.inr (Or.inr (Or.inr ⟨"9:zz", rfl, by decide⟩))))


/-- Monotonicity of the wind contribution in the extracted speed. -/
lemma windComponent_mono (wl₁ wl₂ : List Char) (n₁ n₂ : Nat)
    (h₁ : containsCL (pat "wind") wl₁ = true)
    (h₂ : containsCL (pat "wind") wl₂ = true)
    (m₁ : scanMph wl₁ = some n₁) (m₂ : scanMph wl₂ = some n₂) (hn : n₁ ≤ n₂) :
    windComponent wl₁ ≤ windComponent wl₂ := by
  unfold windComponent
  simp only [h₁, h₂, m₁, m₂, if_true]
  split_ifs <;> first | (exfalso; omega) | norm_num

/-- Monotonicity of the clamped score when only the wind reading grows and
the precipitation flag and first-number temperature reading are fixed. -/
lemma weatherScore_mono (w₁ w₂ : String) (n₁ n₂ : Nat)
    (hwind₁ : containsCL (pat "wind") (lowerStr w₁) = true)
    (hwind₂ : containsCL (pat "wind") (lowerStr w₂) = true)
    (hm₁ : scanMph (lowerStr w₁) = some n₁) (hm₂ : scanMph (lowerStr w₂) = some n₂)
    (hn : n₁ ≤ n₂)
    (hprecip : (containsCL (pat "rain") (lowerStr w₂)
        || containsCL (pat "snow") (lowerStr w₂)
        || containsCL (pat "sleet") (lowerStr w₂))
      = (containsCL (pat "rain") (lowerStr w₁)
        || containsCL (pat "snow") (lowerStr w₁)
        || containsCL (pat "sleet") (lowerStr w₁)))
    (htemp : scanFirstNat (lowerStr w₂) = scanFirstNat (lowerStr w₁)) :
    weatherScore w₁ ≤ weatherScore w₂ := by
  have hw := windComponent_mono _ _ _ _ hwind₁ hwind₂ hm₁ hm₂ hn
  have hp : precipComponent (lowerStr w₂) = precipComponent (lowerStr w₁) := by
    unfold precipComponent; rw [hprecip]
  have ht : tempComponent (lowerStr w₂) = tempComponent (lowerStr w₁) := by
    unfold tempComponent; rw [htemp]
  unfold weatherScore
  rw [hp, ht]
  dsimp only
  split_ifs <;> linarith

/-- C2 (counterexample): increasing the stated wind speed from 20 mph to
40 mph — crossing the `>20` threshold, with every other character of the
weather string fixed — strictly decreases the impact score of an outdoor
game: the temperature regex `(\d+)\s*°?f?` binds the first number of the
string, which here is the wind figure itself, so 20 also scores the
`<32°F` bonus (total 0.3 + 0.2 = 0.5) while 40 scores no temperature
bonus (total 0.4 + 0 = 0.4). -/
theorem weather_wind_threshold_cex :
    scanMph (lowerStr "wind 20 mph") = some 20
      ∧ scanMph (lowerStr "wind 40 mph") = some 40
      ∧ isIndoorRoof (some "OUTDOOR") = false
      ∧ (calculate_weather_impact
          (some ⟨some ⟨some "OUTDOOR"⟩, some "wind 20 mph"⟩)).weather_impact_score
        = 5/10
      ∧ (calculate_weather_impact
          (some ⟨some ⟨some "OUTDOOR"⟩, some "wind 40 mph"⟩)).weather_impact_score
        = 4/10
      ∧ ((4 : ℚ)/10 < 5/10) := by
  refine ⟨by decide, by decide, by decide, ?_, ?_, by norm_num⟩
  · simp only [calculate_weather_impact]
    rw [show isIndoorRoof (some "OUTDOOR") = false from by decide]
    simp only [Bool.false_eq_true, if_false]
    show weatherScore "wind 20 mph" = 5/10
    unfold weatherScore windComponent precipComponent tempComponent
    rw [show containsCL (pat "wind") (lowerStr "wind 20 mph") = true from by decide,
      show scanMph (lowerStr "wind 20 mph") = some 20 from by decide,
      show scanFirstNat (lowerStr "wind 20 mph") = some 20 from by decide,
      show containsCL (pat "rain") (lowerStr "wind 20 mph") = false from by decide,
      show containsCL (pat "snow") (lowerStr "wind 20 mph") = false from by decide,
      show containsCL (pat "sleet") (lowerStr "wind 20 mph") = false from by decide]
    norm_num
  · simp only [calculate_weather_impact]
    rw [show isIndoorRoof (some "OUTDOOR") = false from by decide]
    simp only [Bool.false_eq_true, if_false]
    show weatherScore "wind 40 mph" = 4/10
    unfold weatherScore windComponent precipComponent tempComponent
    rw [show containsCL (pat "wind") (lowerStr "wind 40 mph") = true from by decide,
      show scanMph (lowerStr "wind 40 mph") = some 40 from by decide,
      show scanFirstNat (lowerStr "wind 40 mph") = some 40 from by decide,
      show containsCL (pat "rain") (lowerStr "wind 40 mph") = false from by decide,
      show containsCL (pat "snow") (lowerStr "wind 40 mph") = false from by decide,
      show containsCL (pat "sleet") (lowerStr "wind 40 mph") = false from by decide]
    norm_num

/-- C2 (amended): for an outdoor game, increasing the stated wind-speed
reading never decreases the impact score provided the precipitation flag
and the first-number temperature reading of the weather string are
unchanged — without that proviso the claim fails, because the wind figure
can itself be read as the temperature (see the counterexample). -/
theorem weather_impact_wind_monotone (v : Option Venue) (w₁ w₂ : String)
    (n₁ n₂ : Nat)
    (hout : ∀ ven, v = some ven → isIndoorRoof ven.roof_type = false)
    (hwind₁ : containsCL (pat "wind") (lowerStr w₁) = true)
    (hwind₂ : containsCL (pat "wind") (lowerStr w₂) = true)
    (hm₁ : scanMph (lowerStr w₁) = some n₁) (hm₂ : scanMph (lowerStr w₂) = some n₂)
    (hn : n₁ ≤ n₂)
    (hprecip : (containsCL (pat "rain") (lowerStr w₂)
        || containsCL (pat "snow") (lowerStr w₂)
        || containsCL (pat "sleet") (lowerStr w₂))
      = (containsCL (pat "rain") (lowerStr w₁)
        || containsCL (pat "snow") (lowerStr w₁)
        || containsCL (pat "sleet") (lowerStr w₁)))
    (htemp : scanFirstNat (lowerStr w₂) = scanFirstNat (lowerStr w₁)) :
    (calculate_weather_impact (some ⟨v, some w₁⟩)).weather_impact_score ≤
      (calculate_weather_impact (some ⟨v, some w₂⟩)).weather_impact_score := by
  have hs := weatherScore_mono w₁ w₂ n₁ n₂ hwind₁ hwind₂ hm₁ hm₂ hn hprecip htemp
  cases v with
  | none => exact hs
  | some ven =>
    have hi := hout ven rfl
    simp only [calculate_weather_impact, hi, Bool.false_eq_true, if_false]
    exact hs

/-- Witness for C2's amended theorem: same fixed first number `70`, wind
raised from 12 mph to 18 mph. -/
theorem weather_impact_wind_monotone_witness :
    (calculate_weather_impact
        (some ⟨some ⟨some "OUTDOOR"⟩, some "70° wind 12 mph"⟩)).weather_impact_score ≤
      (calculate_weather_impact
        (some ⟨some ⟨some "OUTDOOR"⟩, some "70° wind 18 mph"⟩)).weather_impact_score :=
  weather_impact_wind_monotone (some ⟨some "OUTDOOR"⟩) _ _ 12 18
    (fun ven hv => by cases hv; decide)
    (by decide) (by decide) (by decide) (by decide) (by decide)
    (by decide) (by decide)


/-- C7 (counterexample): an empty defensive personnel list short-circuits
the analyzer, leaving `defensive_package` null even though its `db_count`
is 0 (≤ 3), where the claimed db-count rule would label it `heavy` — so
the package is not determined by `db_count` alone on every input. -/
theorem defensive_package_empty_cex :
    (analyze_defensive_personnel []).db_count ≤ 3
      ∧ (analyze_defensive_personnel []).defensive_package ≠ some "heavy"
      ∧ (analyze_defensive_personnel []).defensive_package = none := by
  refine ⟨by decide, by decide, by decide⟩

/-- C7 (amended): a personnel list with 4 DL, 3 LB, 4 DB and exactly one
`SS` position yields formation `4-3`, package `base` and box count 8, and
for every non-empty list the package label is determined by the DB count
alone via the ≥6/5/4/≤3 rule; the empty list instead leaves the package
null. -/
theorem analyze_defensive_personnel_spec (ps : List PersonnelPlayer) :
    (groupCount "DL" ps = 4 → groupCount "LB" ps = 3 → groupCount "DB" ps = 4 →
      ps.countP (fun p => p.position.getD "" == "SS") = 1 →
      (analyze_defensive_personnel ps).defensive_formation = some "4-3"
        ∧ (analyze_defensive_personnel ps).defensive_package = some "base"
        ∧ (analyze_defensive_personnel ps).box_count = 8)
    ∧ (ps ≠ [] →
      (analyze_defensive_personnel ps).defensive_package =
        some (if 6 ≤ groupCount "DB" ps then "dime"
          else if groupCount "DB" ps = 5 then "nickel"
          else if groupCount "DB" ps = 4 then "base"
          else "heavy")) := by
  constructor
  · intro h4 h3 hdb hss
    cases ps with
    | nil => simp [groupCount] at hdb
    | cons p rest =>
      have hany : (p :: rest).any (fun q => q.position.getD "" == "SS") = true := by
        rw [List.any_eq_true]
        exact List.countP_pos_iff.mp (by rw [hss]; exact Nat.one_pos)
      simp only [analyze_defensive_personnel, List.isEmpty_cons, Bool.false_eq_true,
        if_false, h4, h3, hdb, hany]
      norm_num
  · intro hne
    cases ps with
    | nil => exact absurd rfl hne
    | cons p rest =>
      simp only [analyze_defensive_personnel, List.isEmpty_cons, Bool.false_eq_true,
        if_false]
      split_ifs <;> first | rfl | omega

/-- A concrete 4-3 base defense: 4 DL, 3 LB, 4 DB with one strong safety. -/
def base43Personnel : List PersonnelPlayer :=
  [⟨some "DE", some "DL"⟩, ⟨some "DT", some "DL"⟩, ⟨some "DT", some "DL"⟩,
   ⟨some "DE", some "DL"⟩, ⟨some "OLB", some "LB"⟩, ⟨some "MLB", some "LB"⟩,
   ⟨some "OLB", some "LB"⟩, ⟨some "CB", some "DB"⟩, ⟨some "CB", some "DB"⟩,
   ⟨some "FS", some "DB"⟩, ⟨some "SS", some "DB"⟩]

/-- Witness for C7's amended theorem at a concrete 11-man personnel list. -/
theorem analyze_defensive_personnel_spec_witness :
    (analyze_defensive_personnel base43Personnel).defensive_formation = some "4-3"
      ∧ (analyze_defensive_personnel base43Personnel).defensive_package = some "base"
      ∧ (analyze_defensive_personnel base43Personnel).box_count = 8 :=
  (analyze_defensive_personnel_spec base43Personnel).1
    (by decide) (by decide) (by decide) (by decide)


/-- Inserting into the date-sorted list adds one element. -/
lemma length_insertByDateDesc (g : DBGame) (l : List DBGame) :
    (insertByDateDesc g l).length = l.length + 1 := by
  induction l with
  | nil => rfl
  | cons h t ih =>
    simp only [insertByDateDesc]
    split_ifs <;> simp [ih]

/-- Sorting by date preserves the number of games. -/
lemma length_sortByDateDesc (l : List DBGame) :
    (sortByDateDesc l).length = l.length := by
  induction l with
  | nil => rfl
  | cons h t ih =>
    show (insertByDateDesc h (sortByDateDesc t)).length = t.length + 1
    rw [length_insertByDateDesc, ih]

/-- C8: with zero qualifying prior games the aggregator returns the
all-zero default record (every guarded division is skipped, nothing is
raised), and with fewer than 3 (respectively 5) qualifying prior games the
`last3_*` (respectively `last5_*`) fields stay at their zero defaults. -/
theorem team_stats_defaults (store : Store) (team_id game_date : String)
    (season : Int) :
    ((store.games.filter (qualifiesForTeam team_id game_date season)) = [] →
      calculate_team_stats store team_id game_date season = defaultTeamStats)
    ∧ ((store.games.filter (qualifiesForTeam team_id game_date season)).length < 3 →
      (calculate_team_stats store team_id game_date season).last3_wins = 0
        ∧ (calculate_team_stats store team_id game_date season).last3_points_per_game = 0
        ∧ (calculate_team_stats store team_id game_date season).last3_points_allowed = 0)
    ∧ ((store.games.filter (qualifiesForTeam team_id game_date season)).length < 5 →
      (calculate_team_stats store team_id game_date season).last5_wins = 0
        ∧ (calculate_team_stats store team_id game_date season).last5_points_per_game = 0
        ∧ (calculate_team_stats store team_id game_date season).last5_points_allowed = 0) := by
  have hlen : (teamGamesQuery store team_id game_date season).length
      = (store.games.filter (qualifiesForTeam team_id game_date season)).length := by
    unfold teamGamesQuery; rw [length_sortByDateDesc]
  refine ⟨?_, ?_, ?_⟩
  · intro h
    have hq : teamGamesQuery store team_id game_date season = [] := by
      unfold teamGamesQuery; rw [h]; rfl
    unfold calculate_team_stats
    rw [hq]
    rfl
  · intro h
    unfold calculate_team_stats
    by_cases he : (teamGamesQuery store team_id game_date season).isEmpty = true
    · rw [if_pos he]; exact ⟨rfl, rfl, rfl⟩
    · rw [if_neg he]
      have hn3 : ¬ 3 ≤ (teamGamesQuery store team_id game_date season).length := by
        omega
      have hn5 : ¬ 5 ≤ (teamGamesQuery store team_id game_date season).length := by
        omega
      rw [if_neg hn5, if_neg hn3]
      exact ⟨rfl, rfl, rfl⟩
  · intro h
    unfold calculate_team_stats
    by_cases he : (teamGamesQuery store team_id game_date season).isEmpty = true
    · rw [if_pos he]; exact ⟨rfl, rfl, rfl⟩
    · rw [if_neg he]
      have hn5 : ¬ 5 ≤ (teamGamesQuery store team_id game_date season).length := by
        omega
      rw [if_neg hn5]
      split <;> exact ⟨rfl, rfl, rfl⟩

/-- Witness for C8 at a concrete empty store. -/
theorem team_stats_defaults_witness :
    calculate_team_stats ⟨[], []⟩ "KC" "2024-09-01" 2024 = defaultTeamStats
      ∧ (calculate_team_stats ⟨[], []⟩ "KC" "2024-09-01" 2024).last3_wins = 0
      ∧ (calculate_team_stats ⟨[], []⟩ "KC" "2024-09-01" 2024).last5_wins = 0 :=
  ⟨(team_stats_defaults ⟨[], []⟩ "KC" "2024-09-01" 2024).1 rfl,
   ((team_stats_defaults ⟨[], []⟩ "KC" "2024-09-01" 2024).2.1 (by decide)).1,
   ((team_stats_defaults ⟨[], []⟩ "KC" "2024-09-01" 2024).2.2 (by decide)).1⟩

/-- Splitting a count between a predicate and its negation is exhaustive. -/
lemma countP_add_countP_not {α : Type} (p : α → Bool) (l : List α) :
    l.countP p + l.countP (fun a => !p a) = l.length := by
  induction l with
  | nil => rfl
  | cons a t ih =>
    cases hpa : p a <;> simp [List.countP_cons, hpa] <;> omega

/-- C10: every considered prior meeting is attributed to exactly one side,
so the two win counters sum to the number of meetings considered, and a
meeting with equal final scores falls to the `else` branch in either
orientation — a win for the current away side. -/
theorem head_to_head_partition (store : Store) (home_id away_id game_date : String) :
    ((calculate_head_to_head_stats store home_id away_id game_date).head_to_head_home_wins
        + (calculate_head_to_head_stats store home_id away_id game_date).head_to_head_away_wins
      = (h2hQuery store home_id away_id game_date).length)
    ∧ (∀ g : DBGame, g.home_score_total = g.away_score_total →
        h2hHomeWin home_id g = false) := by
  constructor
  · cases hq : h2hQuery store home_id away_id game_date with
    | nil => simp [calculate_head_to_head_stats, hq]
    | cons g gs =>
      simp only [calculate_head_to_head_stats, hq, List.isEmpty_cons,
        Bool.false_eq_true, if_false]
      exact countP_add_countP_not _ _
  · intro g hsc
    unfold h2hHomeWin
    split_ifs
    · rw [hsc]; simp
    · rw [hsc]; simp

/-- A prior meeting of the two teams that ended in a tie. -/
def tieGame : DBGame := ⟨1, "A", "B", 2023, "2023-10-01", 20, 20⟩

/-- A store holding only the tie meeting. -/
def tieStore : Store := ⟨[tieGame], []⟩

/-- Witness for C10 at a concrete store with one tied prior meeting. -/
theorem head_to_head_partition_witness :
    ((calculate_head_to_head_stats tieStore "A" "B" "2024-01-01").head_to_head_home_wins
        + (calculate_head_to_head_stats tieStore "A" "B" "2024-01-01").head_to_head_away_wins
      = (h2hQuery tieStore "A" "B" "2024-01-01").length)
    ∧ h2hHomeWin "A" tieGame = false :=
  ⟨(head_to_head_partition tieStore "A" "B" "2024-01-01").1,
   (head_to_head_partition tieStore "A" "B" "2024-01-01").2 tieGame rfl⟩


/-- Truncation toward zero of a non-positive microsecond difference is
non-positive. -/
lemma truncSeconds_nonpos (d : Int) (h : d ≤ 0) : truncSeconds d ≤ 0 := by
  unfold truncSeconds
  split_ifs with h0
  · have hd : d = 0 := le_antisymm h h0
    subst hd
    simp
  · have hnn : (0 : ℤ) ≤ (((-d).toNat / 1000000 : ℕ) : ℤ) := Int.ofNat_nonneg _
    omega

/-- Truncation toward zero of a difference of at least one whole negative
second is strictly negative. -/
lemma truncSeconds_neg (d : Int) (h : d ≤ -1000000) : truncSeconds d < 0 := by
  unfold truncSeconds
  split_ifs with h0
  · omega
  · have h1 : 1000000 ≤ (-d).toNat := by omega
    have h2 : 1 ≤ (-d).toNat / 1000000 := (Nat.one_le_div_iff (by norm_num)).mpr h1
    have h3 : (1 : ℤ) ≤ (((-d).toNat / 1000000 : ℕ) : ℤ) := by exact_mod_cast h2
    omega

/-- C9 (amended): when the drive-start timestamp found by the backward walk
and the current play's timestamp both parse (with matching awareness),
`drive_time_of_possession` is the truncated-toward-zero value of
(start − current) in seconds: non-positive whenever the drive start is not
later than the current play, and strictly negative — the negation of the
elapsed time — whenever the current play is at least one full second
later.  (A sub-second gap truncates to 0, so the original "strictly
earlier ⇒ negative" phrasing fails; see the counterexample.) -/
theorem drive_time_of_possession_spec (game_plays : List CtxPlay) (idx : Nat)
    (current : CtxPlay) (su : PlaySummary) (sp : SummaryPlay) (s1 s2 : String)
    (t1 t2 : Int) (aw : Bool)
    (hidx : idx ≠ 0)
    (hst : (driveBack current.possession_team_id ((game_plays.take idx).reverse)
      (1, none, none)).2.2 = some s1)
    (hne : s1.isEmpty = false)
    (hsu : current.summary = some su) (hsp : su.play = some sp)
    (hts : sp.time_of_day_utc = some s2)
    (hp1 : parseTsMicro s1 = some (t1, aw)) (hp2 : parseTsMicro s2 = some (t2, aw)) :
    (calculate_drive_context game_plays idx current).drive_time_of_possession
        = some (truncSeconds (t1 - t2))
      ∧ (t1 ≤ t2 → truncSeconds (t1 - t2) ≤ 0)
      ∧ (t1 + 1000000 ≤ t2 → truncSeconds (t1 - t2) < 0) := by
  refine ⟨?_, fun h => truncSeconds_nonpos _ (by omega),
    fun h => truncSeconds_neg _ (by omega)⟩
  unfold calculate_drive_context
  rw [if_neg hidx]
  simp only [hst, hne, hsu, hsp, hts, Bool.false_eq_true, if_false,
    timeDiffSeconds, hp1, hp2, beq_self_eq_true, if_true]

/-- C9 (counterexample): with fractional-second timestamps — accepted by
`datetime.fromisoformat` — a drive whose first play is 0.4 s earlier than
the current play reports `drive_time_of_possession = 0`, not a negative
value: `int(-0.4)` truncates toward zero. -/
theorem drive_time_subsecond_cex :
    parseTsMicro "2024-01-01T13:00:00.500000Z" = some (63839710800500000, true)
      ∧ parseTsMicro "2024-01-01T13:00:00.900000Z" = some (63839710800900000, true)
      ∧ (63839710800500000 : Int) < 63839710800900000
      ∧ (calculate_drive_context
          [⟨some "KC", some ⟨some ⟨some 25, some "2024-01-01T13:00:00.500000Z"⟩⟩⟩,
           ⟨some "KC", some ⟨some ⟨some 30, some "2024-01-01T13:00:00.900000Z"⟩⟩⟩] 1
          ⟨some "KC", some ⟨some ⟨some 30, some "2024-01-01T13:00:00.900000Z"⟩⟩⟩).drive_time_of_possession
        = some 0 := by
  refine ⟨by decide, by decide, by decide, by decide⟩

/-- Witness for C9's amended theorem: whole-second timestamps 330 s apart
give the negated elapsed time. -/
theorem drive_time_of_possession_spec_witness :
    (calculate_drive_context
        [⟨some "KC", some ⟨some ⟨some 25, some "2024-01-01T13:00:00Z"⟩⟩⟩,
         ⟨some "KC", some ⟨some ⟨some 30, some "2024-01-01T13:05:30Z"⟩⟩⟩] 1
        ⟨some "KC", some ⟨some ⟨some 30, some "2024-01-01T13:05:30Z"⟩⟩⟩).drive_time_of_possession
        = some (truncSeconds (63839710800000000 - 63839711130000000))
      ∧ truncSeconds (63839710800000000 - 63839711130000000) < 0 := by
  have h := drive_time_of_possession_spec
    [⟨some "KC", some ⟨some ⟨some 25, some "2024-01-01T13:00:00Z"⟩⟩⟩,
     ⟨some "KC", some ⟨some ⟨some 30, some "2024-01-01T13:05:30Z"⟩⟩⟩] 1
    ⟨some "KC", some ⟨some ⟨some 30, some "2024-01-01T13:05:30Z"⟩⟩⟩
    ⟨some ⟨some 30, some "2024-01-01T13:05:30Z"⟩⟩
    ⟨some 30, some "2024-01-01T13:05:30Z"⟩
    "2024-01-01T13:00:00Z" "2024-01-01T13:05:30Z"
    63839710800000000 63839711130000000 true
    (by decide) (by decide) (by decide) rfl rfl rfl (by decide) (by decide)
  exact ⟨h.1, h.2.2 (by decide)⟩

end NflDb
